import Mathlib

/-!
# The datastore loader (`datastore.cpp`)

A shallow embedding of `main` of `datastore.cpp`: the program that reads the
routing artifacts (`.hsgr`, `.ramIndex`, `.nodes`, `.edges`, `.names`, optional
timestamp) and copies them into two shared memory regions, `LAYOUT_1` (the
`SharedDataLayout`) and `DATA_1` (the payload sections).

Conventions of the embedding.

* A file is the list of its bytes; a path that does not exist has no file, and a
  path that exists is a regular file that can be opened for reading.
* A `boost::filesystem::ifstream` is the list of bytes not yet consumed together
  with its `good()` flag.  `read` on a stream that is not good transfers nothing;
  a `read` that asks for more than is left transfers what is left and clears the
  flag (`failbit | eofbit`).
* `unsigned` is 32 bits wide and little endian; `size_t` products of a 32 bit
  count and a `sizeof` do not wrap (LP64), so they are computed in `Nat`.
* The types declared in headers that are not part of `datastore.cpp`
  (`UUID`, `OriginalEdgeData`, `NodeInfo`, `RTreeNode`, `QueryGraph::_StrNode`,
  `QueryGraph::_StrEdge`, `SharedDataLayout::GetSizeOfLayout`) and the state of
  `BOOST_ASSERT_MSG` are parameters, collected in `Config`.
* The `DATA_1` region is represented section by section: each field of
  `DataRegion` holds what the fill phase stored from the start of that section.
  `SharedMemoryFactory::Get` is taken to succeed.
* `OSRMException` is a `std::exception`; a thrown string literal is not.
-/

namespace Datastore

/-! ## The program -/

/-- One byte of a file or of an object representation. -/
abbrev Byte := Fin 256

/-- Value of an `unsigned` whose object representation starts with the given
bytes, least significant first. -/
def leValue : List Byte → Nat
  | [] => 0
  | b :: bs => b.val + 256 * leValue bs

/-- A binary input file stream: the bytes not yet consumed and `good()`. -/
structure IFStream where
  buf : List Byte
  good : Bool
deriving DecidableEq, Repr

/-- Opening a stream on an existing file. -/
def IFStream.openFile (content : List Byte) : IFStream := ⟨content, true⟩

/-- The call `stream.read(dest, n)`: the bytes transferred to `dest` and the stream
afterwards. -/
def IFStream.read (s : IFStream) (n : Nat) : List Byte × IFStream :=
  if s.good then
    if n ≤ s.buf.length then (s.buf.take n, ⟨s.buf.drop n, true⟩)
    else (s.buf, ⟨[], false⟩)
  else ([], s)

/-- The object representation `dest` after `got` has been transferred to its start. -/
def store (dest got : List Byte) : List Byte := got ++ dest.drop got.length

/-- The two statements `unsigned x = 0; stream.read((char*)&x, sizeof(unsigned));`
giving the value of `x` and the stream afterwards. -/
def readUnsigned (s : IFStream) : Nat × IFStream :=
  let r := s.read 4
  (leValue (store [0, 0, 0, 0] r.1), r.2)

/-- The call `getline(stream, line)` on a freshly opened text file: the characters
before the first newline. -/
def getline (content : List Byte) : List Byte := content.takeWhile (fun b => b ≠ 10)

/-- Levels of `SimpleLogger().Write(level)`; `logINFO` is the default. -/
inductive LogLevel
  | logINFO
  | logWARNING
  | logDEBUG
deriving DecidableEq, Repr

/-- One line handed to the logger. -/
structure LogLine where
  level : LogLevel
  text : String
deriving DecidableEq, Repr

/-- A `boost::filesystem::path` as the loader sees it: its string and, when the path
exists, the bytes of the file. -/
structure Path where
  string : String
  file : Option (List Byte)
deriving DecidableEq, Repr

/-- What `main` gets from `server.ini`: which keys the file holds and the six
resolved paths. -/
structure Input where
  holds_hsgrData : Bool
  holds_ramIndex : Bool
  holds_nodesData : Bool
  holds_edgesData : Bool
  hsgr_path : Path
  ram_index_path : Path
  node_data_path : Path
  edge_data_path : Path
  name_data_path : Path
  timestamp_path : Path
deriving DecidableEq, Repr

/-- The fields of `SharedDataLayout` that `main` assigns. -/
structure SharedDataLayout where
  name_index_list_size : Nat
  name_char_list_size : Nat
  name_id_list_size : Nat
  via_node_list_size : Nat
  graph_node_list_size : Nat
  graph_edge_list_size : Nat
  coordinate_list_size : Nat
  turn_instruction_list_size : Nat
  r_search_tree_size : Nat
  checksum : Nat
  timestamp_length : Nat
deriving DecidableEq, Repr

/-- A `FixedPointCoordinate(lat, lon)`. -/
structure FixedPointCoordinate where
  lat : Int
  lon : Int
deriving DecidableEq, Repr

/-- The platform and the headers outside `datastore.cpp`. -/
structure Config where
  /-- Whether `BOOST_ASSERT_MSG` is active (the build does not define `NDEBUG`). -/
  assertions : Bool
  /-- Size of a `UUID`, `sizeof(UUID)`. -/
  sizeofUUID : Nat
  /-- Object representation of a default constructed `UUID`. -/
  defaultUUID : List Byte
  /-- The call `uuid_loaded.TestGraphUtil(uuid_orig)` as a function of the object
  representation of `uuid_loaded`. -/
  TestGraphUtil : List Byte → Bool
  /-- Size of an edge record, `sizeof(OriginalEdgeData)`. -/
  sizeofOriginalEdgeData : Nat
  /-- Object representation of `OriginalEdgeData current_edge_data;` before the loop. -/
  defaultOriginalEdgeData : List Byte
  /-- The member `viaNode` of a record with the given representation. -/
  viaNode : List Byte → Nat
  /-- The member `nameID`. -/
  nameID : List Byte → Nat
  /-- The member `turnInstruction`. -/
  turnInstruction : List Byte → Nat
  /-- Size of a node record, `sizeof(NodeInfo)`. -/
  sizeofNodeInfo : Nat
  /-- Object representation of `NodeInfo current_node;` before the loop. -/
  defaultNodeInfo : List Byte
  /-- The member `lat` of a `NodeInfo`. -/
  lat : List Byte → Int
  /-- The member `lon` of a `NodeInfo`. -/
  lon : List Byte → Int
  /-- Size of a search tree node, `sizeof(RTreeNode)`. -/
  sizeofRTreeNode : Nat
  /-- Size of a graph node, `sizeof(QueryGraph::_StrNode)`. -/
  sizeofStrNode : Nat
  /-- Size of a graph edge, `sizeof(QueryGraph::_StrEdge)`. -/
  sizeofStrEdge : Nat
  /-- The layout built by `new(layout_memory->Ptr()) SharedDataLayout()`. -/
  freshLayout : SharedDataLayout
  /-- The member function `SharedDataLayout::GetSizeOfLayout`. -/
  GetSizeOfLayout : SharedDataLayout → Nat
  /-- A `UUID` object occupies `sizeof(UUID)` bytes. -/
  defaultUUID_length : defaultUUID.length = sizeofUUID
  /-- An `OriginalEdgeData` object occupies `sizeof(OriginalEdgeData)` bytes. -/
  defaultOriginalEdgeData_length : defaultOriginalEdgeData.length = sizeofOriginalEdgeData
  /-- A `NodeInfo` object occupies `sizeof(NodeInfo)` bytes. -/
  defaultNodeInfo_length : defaultNodeInfo.length = sizeofNodeInfo

/-- The `DATA_1` region: its size and, per section, what the fill phase stored from
the section start on. -/
structure DataRegion where
  size : Nat
  name_index : List Byte
  name_char : List Byte
  via_node : List Nat
  name_id : List Nat
  turn_instruction : List Nat
  coordinates : List FixedPointCoordinate
  timestamp : List Byte
  r_search_tree : List Byte
  graph_node_list : List Byte
  graph_edge_list : List Byte
deriving DecidableEq, Repr

/-- What a `throw` inside the `try` block throws. -/
inductive Thrown
  /-- Thrown by `throw OSRMException(what)`: caught by `catch(const std::exception &)`. -/
  | OSRMException (what : String)
  /-- Thrown by `throw("...")`: a `const char *`, which the handler does not match. -/
  | stringLiteral (text : String)
deriving DecidableEq, Repr

/-- How the process ends. -/
inductive Exit
  /-- The function `main` returned this code. -/
  | returned (code : Int)
  /-- A `BOOST_ASSERT_MSG` failed with this message: the process is aborted. -/
  | assertionFailed (msg : String)
  /-- An exception left `main`: `std::terminate`. -/
  | terminated (thrown : String)
deriving DecidableEq, Repr

/-- A complete run: the lines logged, the two shared regions (`none`: never
allocated) and the way the process ended. -/
structure Run where
  log : List LogLine
  layout : Option SharedDataLayout
  data : Option DataRegion
  exit : Exit
deriving DecidableEq, Repr

/-- The five artifact files once they are known to exist. -/
structure Files where
  hsgr : List Byte
  ram_index : List Byte
  nodes : List Byte
  edges : List Byte
  names : List Byte
deriving DecidableEq, Repr

/-- Lines 50 to 113: the configuration keys, the existence of the five files and the
two emptiness checks. -/
def checkInputs (inp : Input) : Except Thrown Files :=
  if inp.holds_hsgrData = false then
    .error (.OSRMException "no ram index file name in server ini")
  else if inp.holds_ramIndex = false then
    .error (.OSRMException "no mem index file name in server ini")
  else if inp.holds_nodesData = false then
    .error (.OSRMException "no nodes file name in server ini")
  else if inp.holds_edgesData = false then
    .error (.OSRMException "no edges file name in server ini")
  else
    match inp.hsgr_path.file with
    | none => .error (.stringLiteral ".hsgr not found")
    | some hsgr =>
    match inp.ram_index_path.file with
    | none => .error (.stringLiteral ".ramIndex not found")
    | some ram_index =>
    match inp.node_data_path.file with
    | none => .error (.stringLiteral ".nodes not found")
    | some nodes =>
    match inp.edge_data_path.file with
    | none => .error (.stringLiteral ".edges not found")
    | some edges =>
    match inp.name_data_path.file with
    | none => .error (.stringLiteral ".names not found")
    | some names =>
    if nodes.length = 0 then
      .error (.OSRMException "nodes file is empty")
    else if edges.length = 0 then
      .error (.OSRMException "edges file is empty")
    else
      .ok ⟨hsgr, ram_index, nodes, edges, names⟩

/-- Lines 216 to 230: the timestamp string.  The file, when it exists, opens, so the
warning of line 220 is never logged. -/
def loadTimestamp (timestamp_file : Option (List Byte)) : List Byte :=
  let m_timestamp : List Byte :=
    match timestamp_file with
    | some content => getline content
    | none => []
  let m_timestamp := if m_timestamp.length = 0 then [110, 47, 97] else m_timestamp
  if 25 < m_timestamp.length then m_timestamp.take 25 else m_timestamp

/-- The local state at line 243, when all element counts have been collected. -/
structure Collected where
  layout : SharedDataLayout
  log : List LogLine
  name_stream : IFStream
  edges_input_stream : IFStream
  hsgr_input_stream : IFStream
  tree_node_file : IFStream
  nodes_input_stream : IFStream
  number_of_original_edges : Nat
  tree_size : Nat
  coordinate_list_size : Nat
  m_timestamp : List Byte
deriving DecidableEq, Repr

/-- Result of the header scan: an assertion stopped the process (with the layout and
the log as they were), or the scan went through. -/
inductive Collect
  | aborted (msg : String) (layout : SharedDataLayout) (log : List LogLine)
  | done (c : Collected)
deriving DecidableEq, Repr

/-- Lines 115 to 242: the layout region is set up and the element counts are read
from the headers of the files into it. -/
def collect (cfg : Config) (inp : Input) (f : Files) (log : List LogLine) : Collect :=
  let layout : SharedDataLayout := cfg.freshLayout
  let log : List LogLine := log ++ [⟨.logINFO, "Collecting files sizes"⟩]
  let name_stream := IFStream.openFile f.names
  let r := readUnsigned name_stream
  let name_index_size := r.1
  let name_stream := r.2
  let layout : SharedDataLayout := { layout with name_index_list_size := name_index_size }
  if cfg.assertions = true ∧ layout.name_index_list_size = 0 then
    Collect.aborted "name file broken" layout log
  else
  let r := readUnsigned name_stream
  let number_of_chars := r.1
  let name_stream := r.2
  let layout : SharedDataLayout := { layout with name_char_list_size := number_of_chars }
  let edges_input_stream := IFStream.openFile f.edges
  let r := readUnsigned edges_input_stream
  let number_of_original_edges := r.1
  let edges_input_stream := r.2
  let log : List LogLine := log ++ [⟨.logDEBUG, "number of edges: " ++ toString number_of_original_edges⟩]
  let layout : SharedDataLayout := { layout with via_node_list_size := number_of_original_edges }
  let layout : SharedDataLayout := { layout with name_id_list_size := number_of_original_edges }
  let layout : SharedDataLayout := { layout with turn_instruction_list_size := number_of_original_edges }
  let log : List LogLine := log ++ [⟨.logDEBUG, "noted number of edges"⟩]
  let log : List LogLine := log ++ [⟨.logDEBUG, "loading hsgr from " ++ inp.hsgr_path.string⟩]
  let hsgr_input_stream := IFStream.openFile f.hsgr
  let r := hsgr_input_stream.read cfg.sizeofUUID
  let uuid_loaded := store cfg.defaultUUID r.1
  let hsgr_input_stream := r.2
  let log : List LogLine := log ++
    [if cfg.TestGraphUtil uuid_loaded = false then
      ⟨.logWARNING,
        ".hsgr was prepared with different build. Reprocess to get rid of this warning."⟩
    else
      ⟨.logINFO, "UUID checked out ok"⟩]
  let r := readUnsigned hsgr_input_stream
  let checksum := r.1
  let hsgr_input_stream := r.2
  let log : List LogLine := log ++ [⟨.logINFO, "checksum: " ++ toString checksum⟩]
  let layout : SharedDataLayout := { layout with checksum := checksum }
  let log : List LogLine := log ++ [⟨.logDEBUG, "noted checksum"⟩]
  let r := readUnsigned hsgr_input_stream
  let number_of_graph_nodes := r.1
  let hsgr_input_stream := r.2
  let log : List LogLine := log ++ [⟨.logDEBUG, "number of nodes: " ++ toString number_of_graph_nodes⟩]
  if cfg.assertions = true ∧ number_of_graph_nodes = 0 then
    Collect.aborted "number of nodes is zero" layout log
  else
  let layout : SharedDataLayout := { layout with graph_node_list_size := number_of_graph_nodes }
  let r := readUnsigned hsgr_input_stream
  let number_of_graph_edges := r.1
  let hsgr_input_stream := r.2
  let log : List LogLine := log ++ [⟨.logINFO, "number of graph edges: " ++ toString number_of_graph_edges⟩]
  if cfg.assertions = true ∧ number_of_graph_edges = 0 then
    Collect.aborted "number of graph edges is zero" layout log
  else
  let layout : SharedDataLayout := { layout with graph_edge_list_size := number_of_graph_edges }
  let log : List LogLine := log ++ [⟨.logDEBUG, "loading r-tree search list size"⟩]
  let tree_node_file := IFStream.openFile f.ram_index
  let r := readUnsigned tree_node_file
  let tree_size := r.1
  let tree_node_file := r.2
  let layout : SharedDataLayout := { layout with r_search_tree_size := tree_size }
  let log : List LogLine := log ++ [⟨.logDEBUG, "Loading timestamp"⟩]
  let m_timestamp := loadTimestamp inp.timestamp_path.file
  let layout : SharedDataLayout := { layout with timestamp_length := m_timestamp.length }
  let log : List LogLine := log ++ [⟨.logINFO, "Loading coordinates list from " ++ inp.node_data_path.string⟩]
  let nodes_input_stream := IFStream.openFile f.nodes
  let r := readUnsigned nodes_input_stream
  let coordinate_list_size := r.1
  let nodes_input_stream := r.2
  let layout : SharedDataLayout := { layout with coordinate_list_size := coordinate_list_size }
  Collect.done {
    layout := layout
    log := log
    name_stream := name_stream
    edges_input_stream := edges_input_stream
    hsgr_input_stream := hsgr_input_stream
    tree_node_file := tree_node_file
    nodes_input_stream := nodes_input_stream
    number_of_original_edges := number_of_original_edges
    tree_size := tree_size
    coordinate_list_size := coordinate_list_size
    m_timestamp := m_timestamp }

/-- The three lists written by the loop over the original edges. -/
structure EdgeLists where
  via_node : List Nat
  name_id : List Nat
  turn_instruction : List Nat
deriving DecidableEq, Repr

/-- Lines 292 to 302: `n` iterations of the loop over the original edges, starting
with the stream `s` and the record `cur` in `current_edge_data`.  Iteration `i`
writes entry `i` of each list, so the entries are produced in order. -/
def edgeLoop (cfg : Config) : Nat → IFStream → List Byte → EdgeLists
  | 0, _, _ => ⟨[], [], []⟩
  | n + 1, s, cur =>
    let r := s.read cfg.sizeofOriginalEdgeData
    let current_edge_data := store cur r.1
    let rest := edgeLoop cfg n r.2 current_edge_data
    ⟨cfg.viaNode current_edge_data :: rest.via_node,
     cfg.nameID current_edge_data :: rest.name_id,
     cfg.turnInstruction current_edge_data :: rest.turn_instruction⟩

/-- Lines 310 to 314: `n` iterations of the loop over the coordinates. -/
def coordinateLoop (cfg : Config) : Nat → IFStream → List Byte → List FixedPointCoordinate
  | 0, _, _ => []
  | n + 1, s, cur =>
    let r := s.read cfg.sizeofNodeInfo
    let current_node := store cur r.1
    ⟨cfg.lat current_node, cfg.lon current_node⟩ :: coordinateLoop cfg n r.2 current_node

/-- Lines 245 to 354: the data region is allocated and filled; gives the region and
the log afterwards. -/
def fill (cfg : Config) (inp : Input) (c : Collected) : DataRegion × List LogLine :=
  let layout := c.layout
  let log := c.log ++ [⟨.logINFO, "allocating shared memory of " ++
    toString (cfg.GetSizeOfLayout layout) ++ " bytes"⟩]
  let size := cfg.GetSizeOfLayout layout
  let log : List LogLine := log ++ [⟨.logINFO,
    "Loading names index and chars from: " ++ inp.name_data_path.string⟩]
  let log : List LogLine := log ++ [⟨.logDEBUG, "Bytes: " ++ toString (layout.name_index_list_size * 4)⟩]
  let r := c.name_stream.read (layout.name_index_list_size * 4)
  let name_index := r.1
  let name_stream := r.2
  let log : List LogLine := log ++ [⟨.logDEBUG, "Loading names char list"⟩]
  let log : List LogLine := log ++ [⟨.logDEBUG, "Bytes: " ++ toString (layout.name_char_list_size * 1)⟩]
  let r := name_stream.read (layout.name_char_list_size * 1)
  let name_char := r.1
  let log : List LogLine := log ++ [⟨.logINFO,
    "Loading via node, coordinates and turn instruction lists from: " ++
      inp.edge_data_path.string⟩]
  let edge_lists := edgeLoop cfg c.number_of_original_edges c.edges_input_stream
    cfg.defaultOriginalEdgeData
  let coordinates := coordinateLoop cfg c.coordinate_list_size c.nodes_input_stream
    cfg.defaultNodeInfo
  let timestamp := c.m_timestamp
  let r := c.tree_node_file.read (cfg.sizeofRTreeNode * c.tree_size)
  let r_search_tree := r.1
  let r := c.hsgr_input_stream.read (layout.graph_node_list_size * cfg.sizeofStrNode)
  let graph_node_list := r.1
  let hsgr_input_stream := r.2
  let r := hsgr_input_stream.read (layout.graph_edge_list_size * cfg.sizeofStrEdge)
  let graph_edge_list := r.1
  let log : List LogLine := log ++ [⟨.logINFO, "all data loaded. pressing a key deallocates memory"⟩]
  ({ size := size
     name_index := name_index
     name_char := name_char
     via_node := edge_lists.via_node
     name_id := edge_lists.name_id
     turn_instruction := edge_lists.turn_instruction
     coordinates := coordinates
     timestamp := timestamp
     r_search_tree := r_search_tree
     graph_node_list := graph_node_list
     graph_edge_list := graph_edge_list }, log)

/-- The function `main` of `datastore.cpp`. -/
def main (cfg : Config) (inp : Input) : Run :=
  let log := [⟨.logINFO, "Checking input parameters"⟩]
  match checkInputs inp with
  | .error (.OSRMException what) =>
    { log := log ++ [⟨.logWARNING, "caught exception: " ++ what⟩]
      layout := none
      data := none
      exit := .returned 0 }
  | .error (.stringLiteral text) =>
    { log := log, layout := none, data := none, exit := .terminated text }
  | .ok f =>
    match collect cfg inp f log with
    | .aborted msg layout log =>
      { log := log, layout := some layout, data := none, exit := .assertionFailed msg }
    | .done c =>
      let r := fill cfg inp c
      { log := r.2, layout := some c.layout, data := some r.1, exit := .returned 0 }

/-! ## Closed forms used in the proofs -/

/-- The stream opened on `content` once `off` bytes have been asked of it. -/
def IFStream.atOffset (content : List Byte) (off : Nat) : IFStream :=
  ⟨content.drop off, decide (off ≤ content.length)⟩

/-- The first line logged by `main`. -/
def firstLog : List LogLine := [⟨.logINFO, "Checking input parameters"⟩]

/-- The layout a completed header scan leaves in the layout region. -/
def scannedLayout (cfg : Config) (inp : Input) (f : Files) : SharedDataLayout where
  name_index_list_size := leValue (f.names.take 4)
  name_char_list_size := leValue ((f.names.drop 4).take 4)
  name_id_list_size := leValue (f.edges.take 4)
  via_node_list_size := leValue (f.edges.take 4)
  graph_node_list_size := leValue ((f.hsgr.drop (cfg.sizeofUUID + 4)).take 4)
  graph_edge_list_size := leValue ((f.hsgr.drop (cfg.sizeofUUID + 8)).take 4)
  coordinate_list_size := leValue (f.nodes.take 4)
  turn_instruction_list_size := leValue (f.edges.take 4)
  r_search_tree_size := leValue (f.ram_index.take 4)
  checksum := leValue ((f.hsgr.drop cfg.sizeofUUID).take 4)
  timestamp_length := (loadTimestamp inp.timestamp_path.file).length

/-- The data region a run leaves behind when the files `f` passed the checks and the
header scan went through. -/
def filledRegion (cfg : Config) (inp : Input) (f : Files) : DataRegion where
  size := cfg.GetSizeOfLayout (scannedLayout cfg inp f)
  name_index := (f.names.drop 8).take (leValue (f.names.take 4) * 4)
  name_char := (f.names.drop (8 + leValue (f.names.take 4) * 4)).take
    (leValue ((f.names.drop 4).take 4) * 1)
  via_node := (edgeLoop cfg (leValue (f.edges.take 4)) (IFStream.atOffset f.edges 4)
    cfg.defaultOriginalEdgeData).via_node
  name_id := (edgeLoop cfg (leValue (f.edges.take 4)) (IFStream.atOffset f.edges 4)
    cfg.defaultOriginalEdgeData).name_id
  turn_instruction := (edgeLoop cfg (leValue (f.edges.take 4)) (IFStream.atOffset f.edges 4)
    cfg.defaultOriginalEdgeData).turn_instruction
  coordinates := coordinateLoop cfg (leValue (f.nodes.take 4)) (IFStream.atOffset f.nodes 4)
    cfg.defaultNodeInfo
  timestamp := loadTimestamp inp.timestamp_path.file
  r_search_tree := (f.ram_index.drop 4).take (cfg.sizeofRTreeNode * leValue (f.ram_index.take 4))
  graph_node_list := (f.hsgr.drop (cfg.sizeofUUID + 12)).take
    (leValue ((f.hsgr.drop (cfg.sizeofUUID + 4)).take 4) * cfg.sizeofStrNode)
  graph_edge_list := (f.hsgr.drop (cfg.sizeofUUID + 12 +
      leValue ((f.hsgr.drop (cfg.sizeofUUID + 4)).take 4) * cfg.sizeofStrNode)).take
    (leValue ((f.hsgr.drop (cfg.sizeofUUID + 8)).take 4) * cfg.sizeofStrEdge)

/-- The line logged after the comparison of the identity marker. -/
def markerLine (cfg : Config) (hsgr : List Byte) : LogLine :=
  if cfg.TestGraphUtil (store cfg.defaultUUID (hsgr.take cfg.sizeofUUID)) = false then
    ⟨.logWARNING,
      ".hsgr was prepared with different build. Reprocess to get rid of this warning."⟩
  else
    ⟨.logINFO, "UUID checked out ok"⟩

/-- The lines a completed header scan logs before the marker is compared. -/
def scanLinesBefore (inp : Input) (f : Files) : List LogLine :=
  [⟨.logINFO, "Collecting files sizes"⟩,
   ⟨.logDEBUG, "number of edges: " ++ toString (leValue (f.edges.take 4))⟩,
   ⟨.logDEBUG, "noted number of edges"⟩,
   ⟨.logDEBUG, "loading hsgr from " ++ inp.hsgr_path.string⟩]

/-- The lines a completed header scan logs after the marker has been compared. -/
def scanLinesAfter (cfg : Config) (inp : Input) (f : Files) : List LogLine :=
  [⟨.logINFO, "checksum: " ++ toString (leValue ((f.hsgr.drop cfg.sizeofUUID).take 4))⟩,
   ⟨.logDEBUG, "noted checksum"⟩,
   ⟨.logDEBUG, "number of nodes: " ++
      toString (leValue ((f.hsgr.drop (cfg.sizeofUUID + 4)).take 4))⟩,
   ⟨.logINFO, "number of graph edges: " ++
      toString (leValue ((f.hsgr.drop (cfg.sizeofUUID + 8)).take 4))⟩,
   ⟨.logDEBUG, "loading r-tree search list size"⟩,
   ⟨.logDEBUG, "Loading timestamp"⟩,
   ⟨.logINFO, "Loading coordinates list from " ++ inp.node_data_path.string⟩]

/-- The lines logged by the fill phase. -/
def fillLines (cfg : Config) (inp : Input) (l : SharedDataLayout) : List LogLine :=
  [⟨.logINFO, "allocating shared memory of " ++ toString (cfg.GetSizeOfLayout l) ++ " bytes"⟩,
   ⟨.logINFO, "Loading names index and chars from: " ++ inp.name_data_path.string⟩,
   ⟨.logDEBUG, "Bytes: " ++ toString (l.name_index_list_size * 4)⟩,
   ⟨.logDEBUG, "Loading names char list"⟩,
   ⟨.logDEBUG, "Bytes: " ++ toString (l.name_char_list_size * 1)⟩,
   ⟨.logINFO, "Loading via node, coordinates and turn instruction lists from: " ++
      inp.edge_data_path.string⟩,
   ⟨.logINFO, "all data loaded. pressing a key deallocates memory"⟩]

/-- The input `inp` with the identity marker `u` of its graph file replaced: the graph
file becomes `u ++ rest`. -/
def withMarker (inp : Input) (u rest : List Byte) : Input :=
  { inp with hsgr_path := ⟨inp.hsgr_path.string, some (u ++ rest)⟩ }

/-- The input `inp` with another graph file at the same path. -/
def withHsgr (inp : Input) (hsgr : List Byte) : Input :=
  { inp with hsgr_path := ⟨inp.hsgr_path.string, some hsgr⟩ }

/-! ## A concrete platform and concrete files -/

/-- A small platform: a four byte `UUID`, records of twelve bytes with the members
at offsets 0, 4 and 8, assertions active. -/
def demoConfig : Config where
  assertions := true
  sizeofUUID := 4
  defaultUUID := [1, 2, 3, 4]
  TestGraphUtil := fun u => decide (u = [1, 2, 3, 4])
  sizeofOriginalEdgeData := 12
  defaultOriginalEdgeData := List.replicate 12 255
  viaNode := fun r => leValue (r.take 4)
  nameID := fun r => leValue ((r.drop 4).take 4)
  turnInstruction := fun r => leValue ((r.drop 8).take 1)
  sizeofNodeInfo := 12
  defaultNodeInfo := List.replicate 12 0
  lat := fun r => Int.ofNat (leValue (r.take 4))
  lon := fun r => Int.ofNat (leValue ((r.drop 4).take 4))
  sizeofRTreeNode := 8
  sizeofStrNode := 4
  sizeofStrEdge := 8
  freshLayout := ⟨0, 0, 0, 0, 0, 0, 0, 0, 0, 0, 0⟩
  GetSizeOfLayout := fun l =>
    l.name_index_list_size * 4 + l.name_char_list_size * 1 + l.name_id_list_size * 4 +
    l.via_node_list_size * 4 + l.graph_node_list_size * 4 + l.graph_edge_list_size * 8 +
    l.timestamp_length * 1 + l.coordinate_list_size * 8 + l.turn_instruction_list_size * 1 +
    l.r_search_tree_size * 8
  defaultUUID_length := rfl
  defaultOriginalEdgeData_length := rfl
  defaultNodeInfo_length := rfl

/-- A graph file: marker of the build, checksum `0x12345678`, two nodes, one edge,
then the two node records and the edge record. -/
def demoHsgr : List Byte :=
  [1, 2, 3, 4] ++ [0x78, 0x56, 0x34, 0x12] ++ [2, 0, 0, 0] ++ [1, 0, 0, 0] ++
  [10, 11, 12, 13, 20, 21, 22, 23] ++ [30, 31, 32, 33, 34, 35, 36, 37]

/-- A spatial index file with one tree node. -/
def demoRamIndex : List Byte := [1, 0, 0, 0] ++ [40, 41, 42, 43, 44, 45, 46, 47]

/-- A nodes file with one record. -/
def demoNodes : List Byte := [1, 0, 0, 0] ++ [5, 0, 0, 0, 6, 0, 0, 0, 7, 0, 0, 0]

/-- An edges file that declares two records and holds both. -/
def demoEdges : List Byte :=
  [2, 0, 0, 0] ++ [7, 0, 0, 0, 1, 0, 0, 0, 3, 0, 0, 0] ++ [9, 0, 0, 0, 0, 0, 0, 0, 5, 0, 0, 0]

/-- A names file with two index entries and three characters. -/
def demoNames : List Byte := [2, 0, 0, 0] ++ [3, 0, 0, 0] ++ [0, 0, 0, 0, 2, 0, 0, 0] ++ [97, 98, 99]

/-- A timestamp file whose first line is `2013-10-01`. -/
def demoTimestamp : List Byte := [50, 48, 49, 51, 45, 49, 48, 45, 48, 49, 10, 120]

/-- A complete and well formed input. -/
def demoInput : Input where
  holds_hsgrData := true
  holds_ramIndex := true
  holds_nodesData := true
  holds_edgesData := true
  hsgr_path := ⟨"/data/map.hsgr", some demoHsgr⟩
  ram_index_path := ⟨"/data/map.ramIndex", some demoRamIndex⟩
  node_data_path := ⟨"/data/map.nodes", some demoNodes⟩
  edge_data_path := ⟨"/data/map.edges", some demoEdges⟩
  name_data_path := ⟨"/data/map.names", some demoNames⟩
  timestamp_path := ⟨"/data/map.timestamp", some demoTimestamp⟩

/-- The layout region after the run on `demoInput`. -/
def demoLayout : SharedDataLayout where
  name_index_list_size := 2
  name_char_list_size := 3
  name_id_list_size := 2
  via_node_list_size := 2
  graph_node_list_size := 2
  graph_edge_list_size := 1
  coordinate_list_size := 1
  turn_instruction_list_size := 2
  r_search_tree_size := 1
  checksum := 305419896
  timestamp_length := 10

/-- The data region after the run on `demoInput`. -/
def demoRegion : DataRegion where
  size := 71
  name_index := [0, 0, 0, 0, 2, 0, 0, 0]
  name_char := [97, 98, 99]
  via_node := [7, 9]
  name_id := [1, 0]
  turn_instruction := [3, 5]
  coordinates := [⟨5, 6⟩]
  timestamp := [50, 48, 49, 51, 45, 49, 48, 45, 48, 49]
  r_search_tree := [40, 41, 42, 43, 44, 45, 46, 47]
  graph_node_list := [10, 11, 12, 13, 20, 21, 22, 23]
  graph_edge_list := [30, 31, 32, 33, 34, 35, 36, 37]

/-- The demo input with an edges file of length zero. -/
def emptyEdgesInput : Input :=
  { demoInput with edge_data_path := ⟨"/data/map.edges", some []⟩ }

/-- The demo input with a nodes file of length zero and without its edges file. -/
def emptyNodesNoEdgesInput : Input :=
  { demoInput with
    node_data_path := ⟨"/data/map.nodes", some []⟩
    edge_data_path := ⟨"/data/map.edges", none⟩ }

/-- The demo input without its graph file. -/
def missingHsgrInput : Input :=
  { demoInput with hsgr_path := ⟨"/data/map.hsgr", none⟩ }

/-- A graph file like `demoHsgr` that declares zero nodes. -/
def zeroNodesHsgr : List Byte :=
  [1, 2, 3, 4] ++ [0x78, 0x56, 0x34, 0x12] ++ [0, 0, 0, 0] ++ [1, 0, 0, 0] ++
  [30, 31, 32, 33, 34, 35, 36, 37]

/-- The demo input with the graph file that declares zero nodes. -/
def zeroNodesInput : Input :=
  { demoInput with hsgr_path := ⟨"/data/map.hsgr", some zeroNodesHsgr⟩ }

/-- A names file that declares two index entries and three characters but ends after
the first index entry. -/
def shortNames : List Byte := [2, 0, 0, 0] ++ [3, 0, 0, 0] ++ [0, 0, 0, 0]

/-- The demo input with the short names file. -/
def shortNamesInput : Input :=
  { demoInput with name_data_path := ⟨"/data/map.names", some shortNames⟩ }

theorem openFile_eq_atOffset (content : List Byte) :
    IFStream.openFile content = IFStream.atOffset content 0 := by
  simp [IFStream.openFile, IFStream.atOffset]

theorem read_atOffset (content : List Byte) (off n : Nat) :
    (IFStream.atOffset content off).read n =
      ((content.drop off).take n, IFStream.atOffset content (off + n)) := by
  unfold IFStream.read IFStream.atOffset
  by_cases hoff : off ≤ content.length
  · by_cases hn : n ≤ content.length - off
    · have h2 : off + n ≤ content.length := by omega
      simp [hoff, hn, h2, List.drop_drop, Nat.add_comm]
    · have h2 : ¬ off + n ≤ content.length := by omega
      have h3 : content.length ≤ off + n := by omega
      have h4 : content.length - off ≤ n := by omega
      simp [hoff, hn, h2, List.drop_eq_nil_of_le h3, List.take_of_length_le, h4]
  · have h2 : ¬ off + n ≤ content.length := by omega
    have h3 : content.length ≤ off := by omega
    have h4 : content.length ≤ off + n := by omega
    simp [hoff, h2, List.drop_eq_nil_of_le h3, List.drop_eq_nil_of_le h4]

theorem leValue_append_zeros (bs : List Byte) (k : Nat) :
    leValue (bs ++ List.replicate k 0) = leValue bs := by
  induction bs with
  | nil =>
    induction k with
    | zero => simp [leValue]
    | succ k ih => simp [List.replicate_succ, leValue] at ih ⊢; exact ih
  | cons b bs ih => simp [leValue, ih]

theorem leValue_store_zeros (got : List Byte) :
    leValue (store [0, 0, 0, 0] got) = leValue got := by
  have h : ([0, 0, 0, 0] : List Byte) = List.replicate 4 0 := by rfl
  unfold store
  rw [h, List.drop_replicate, leValue_append_zeros]

theorem readUnsigned_atOffset (content : List Byte) (off : Nat) :
    readUnsigned (IFStream.atOffset content off) =
      (leValue ((content.drop off).take 4), IFStream.atOffset content (off + 4)) := by
  simp [readUnsigned, read_atOffset, leValue_store_zeros]

theorem collect_done {cfg : Config} {inp : Input} {f : Files} {log : List LogLine}
    {c : Collected} (h : collect cfg inp f log = Collect.done c) :
    c.layout = scannedLayout cfg inp f ∧
    c.name_stream = IFStream.atOffset f.names 8 ∧
    c.edges_input_stream = IFStream.atOffset f.edges 4 ∧
    c.hsgr_input_stream = IFStream.atOffset f.hsgr (cfg.sizeofUUID + 12) ∧
    c.tree_node_file = IFStream.atOffset f.ram_index 4 ∧
    c.nodes_input_stream = IFStream.atOffset f.nodes 4 ∧
    c.number_of_original_edges = leValue (f.edges.take 4) ∧
    c.tree_size = leValue (f.ram_index.take 4) ∧
    c.coordinate_list_size = leValue (f.nodes.take 4) ∧
    c.m_timestamp = loadTimestamp inp.timestamp_path.file := by
  unfold collect at h
  simp only [openFile_eq_atOffset, readUnsigned_atOffset, read_atOffset] at h
  split_ifs at h <;>
  · cases h
    simp [scannedLayout, Nat.add_assoc]

theorem checkInputs_ok {inp : Input} {f : Files} (h : checkInputs inp = Except.ok f) :
    inp.holds_hsgrData = true ∧ inp.holds_ramIndex = true ∧
    inp.holds_nodesData = true ∧ inp.holds_edgesData = true ∧
    inp.hsgr_path.file = some f.hsgr ∧ inp.ram_index_path.file = some f.ram_index ∧
    inp.node_data_path.file = some f.nodes ∧ inp.edge_data_path.file = some f.edges ∧
    inp.name_data_path.file = some f.names ∧ f.nodes.length ≠ 0 ∧ f.edges.length ≠ 0 := by
  unfold checkInputs at h
  split_ifs at h
  split at h <;> try simp at h
  split at h <;> try simp at h
  split at h <;> try simp at h
  split at h <;> try simp at h
  split at h <;> try simp at h
  split_ifs at h
  simp at h
  subst h
  simp_all

theorem fill_data {cfg : Config} {inp : Input} {f : Files} {log : List LogLine}
    {c : Collected} (h : collect cfg inp f log = Collect.done c) :
    (fill cfg inp c).1 = filledRegion cfg inp f := by
  obtain ⟨h1, h2, h3, h4, h5, h6, h7, h8, h9, h10⟩ := collect_done h
  simp [fill, filledRegion, h1, h2, h3, h4, h5, h6, h7, h8, h9, h10, read_atOffset,
    scannedLayout]

theorem main_of_done {cfg : Config} {inp : Input} {f : Files} {c : Collected}
    (h1 : checkInputs inp = Except.ok f) (h2 : collect cfg inp f firstLog = Collect.done c) :
    main cfg inp =
      { log := (fill cfg inp c).2
        layout := some (scannedLayout cfg inp f)
        data := some (filledRegion cfg inp f)
        exit := Exit.returned 0 } := by
  have h3 := fill_data h2
  have h4 := (collect_done h2).1
  unfold firstLog at h2
  simp [main, h1, h2, h3, h4]

theorem main_data {cfg : Config} {inp : Input} {d : DataRegion}
    (h : (main cfg inp).data = some d) :
    ∃ f c, checkInputs inp = Except.ok f ∧ collect cfg inp f firstLog = Collect.done c ∧
      d = filledRegion cfg inp f := by
  cases h1 : checkInputs inp with
  | error t =>
    cases t <;> simp [main, h1] at h
  | ok f =>
    cases h2 : collect cfg inp f firstLog with
    | aborted msg layout log =>
      unfold firstLog at h2
      simp [main, h1, h2] at h
    | done c =>
      rw [main_of_done h1 h2] at h
      simp at h
      exact ⟨f, c, rfl, h2, h.symm⟩

theorem edgeLoop_length (cfg : Config) (n : Nat) (s : IFStream) (cur : List Byte) :
    (edgeLoop cfg n s cur).via_node.length = n ∧
    (edgeLoop cfg n s cur).name_id.length = n ∧
    (edgeLoop cfg n s cur).turn_instruction.length = n := by
  induction n generalizing s cur with
  | zero => simp [edgeLoop]
  | succ n ih =>
    obtain ⟨h1, h2, h3⟩ := ih (s.read cfg.sizeofOriginalEdgeData).2
      (store cur (s.read cfg.sizeofOriginalEdgeData).1)
    simp [edgeLoop, h1, h2, h3]

theorem store_full (cur got : List Byte) (h : cur.length ≤ got.length) :
    store cur got = got := by
  simp [store, List.drop_eq_nil_of_le h]

theorem edgeLoop_entries (cfg : Config) (content : List Byte) (n off : Nat) (cur : List Byte)
    (hcur : cur.length ≤ cfg.sizeofOriginalEdgeData) (i : Nat) (hi : i < n)
    (hfit : off + (i + 1) * cfg.sizeofOriginalEdgeData ≤ content.length) :
    (edgeLoop cfg n (IFStream.atOffset content off) cur).via_node[i]? =
      some (cfg.viaNode ((content.drop (off + i * cfg.sizeofOriginalEdgeData)).take
        cfg.sizeofOriginalEdgeData)) ∧
    (edgeLoop cfg n (IFStream.atOffset content off) cur).name_id[i]? =
      some (cfg.nameID ((content.drop (off + i * cfg.sizeofOriginalEdgeData)).take
        cfg.sizeofOriginalEdgeData)) ∧
    (edgeLoop cfg n (IFStream.atOffset content off) cur).turn_instruction[i]? =
      some (cfg.turnInstruction ((content.drop (off + i * cfg.sizeofOriginalEdgeData)).take
        cfg.sizeofOriginalEdgeData)) := by
  induction n generalizing off cur i with
  | zero => omega
  | succ n ih =>
    have hmul : (i + 1) * cfg.sizeofOriginalEdgeData =
        i * cfg.sizeofOriginalEdgeData + cfg.sizeofOriginalEdgeData := Nat.succ_mul _ _
    have hgot : ((content.drop off).take cfg.sizeofOriginalEdgeData).length =
        cfg.sizeofOriginalEdgeData := by
      rw [List.length_take, List.length_drop]
      omega
    have hst : store cur ((content.drop off).take cfg.sizeofOriginalEdgeData) =
        (content.drop off).take cfg.sizeofOriginalEdgeData :=
      store_full _ _ (by rw [hgot]; exact hcur)
    cases i with
    | zero => simp [edgeLoop, read_atOffset, hst]
    | succ j =>
      have hj : j < n := by omega
      have hmul2 : (j + 1) * cfg.sizeofOriginalEdgeData =
          j * cfg.sizeofOriginalEdgeData + cfg.sizeofOriginalEdgeData := Nat.succ_mul _ _
      have hfit2 : off + cfg.sizeofOriginalEdgeData + (j + 1) * cfg.sizeofOriginalEdgeData ≤
          content.length := by omega
      have h := ih (off + cfg.sizeofOriginalEdgeData)
        ((content.drop off).take cfg.sizeofOriginalEdgeData) (by rw [hgot]) j hj hfit2
      have hoff : off + cfg.sizeofOriginalEdgeData + j * cfg.sizeofOriginalEdgeData =
          off + (j + 1) * cfg.sizeofOriginalEdgeData := by omega
      rw [hoff] at h
      simpa [edgeLoop, read_atOffset, hst] using h

theorem main_layout {cfg : Config} {inp : Input} {d : DataRegion} {l : SharedDataLayout}
    (hd : (main cfg inp).data = some d) (hl : (main cfg inp).layout = some l) :
    ∃ f, checkInputs inp = Except.ok f ∧ l = scannedLayout cfg inp f ∧
      d = filledRegion cfg inp f ∧ (main cfg inp).exit = Exit.returned 0 := by
  obtain ⟨f, c, h1, h2, h3⟩ := main_data hd
  rw [main_of_done h1 h2] at hl
  simp at hl
  exact ⟨f, h1, hl.symm, h3, by rw [main_of_done h1 h2]⟩

theorem loadTimestamp_none : loadTimestamp none = [110, 47, 97] := by
  simp [loadTimestamp]

theorem loadTimestamp_empty (content : List Byte) (h : getline content = []) :
    loadTimestamp (some content) = [110, 47, 97] := by
  simp [loadTimestamp, h]

theorem loadTimestamp_line (content : List Byte) (h : getline content ≠ []) :
    loadTimestamp (some content) =
      (getline content).take (min 25 (getline content).length) := by
  have hlen : (getline content).length ≠ 0 := by
    intro h0
    exact h (List.length_eq_zero.mp h0)
  by_cases h25 : 25 < (getline content).length
  · have hmin : min 25 (getline content).length = 25 := by omega
    have hne : ¬ getline content = [] := h
    simp [loadTimestamp, hne, h25, hmin]
  · have hmin : min 25 (getline content).length = (getline content).length := by omega
    have hne : ¬ getline content = [] := h
    simp [loadTimestamp, hne, h25, hmin]

theorem loadTimestamp_length (file : Option (List Byte)) :
    1 ≤ (loadTimestamp file).length ∧ (loadTimestamp file).length ≤ 25 := by
  cases file with
  | none => simp [loadTimestamp_none]
  | some content =>
    by_cases h : getline content = []
    · simp [loadTimestamp_empty content h]
    · rw [loadTimestamp_line content h, List.length_take]
      have hlen : (getline content).length ≠ 0 := by
        intro h0
        exact h (List.length_eq_zero.mp h0)
      omega

theorem checkInputs_of_files (inp : Input) (hsgr ram_index nodes edges names : List Byte)
    (h1 : inp.holds_hsgrData = true) (h2 : inp.holds_ramIndex = true)
    (h3 : inp.holds_nodesData = true) (h4 : inp.holds_edgesData = true)
    (hh : inp.hsgr_path.file = some hsgr) (hr : inp.ram_index_path.file = some ram_index)
    (hn : inp.node_data_path.file = some nodes) (he : inp.edge_data_path.file = some edges)
    (hm : inp.name_data_path.file = some names)
    (hn0 : nodes.length ≠ 0) (he0 : edges.length ≠ 0) :
    checkInputs inp = Except.ok ⟨hsgr, ram_index, nodes, edges, names⟩ := by
  simp [checkInputs, h1, h2, h3, h4, hh, hr, hn, he, hm, hn0, he0]

theorem collect_passes (cfg : Config) (inp : Input) (f : Files) (log : List LogLine)
    (hpass : cfg.assertions = true →
      leValue (f.names.take 4) ≠ 0 ∧
      leValue ((f.hsgr.drop (cfg.sizeofUUID + 4)).take 4) ≠ 0 ∧
      leValue ((f.hsgr.drop (cfg.sizeofUUID + 8)).take 4) ≠ 0) :
    ∃ c, collect cfg inp f log = Collect.done c := by
  unfold collect
  simp only [openFile_eq_atOffset, readUnsigned_atOffset, read_atOffset]
  by_cases ha : cfg.assertions = true
  · obtain ⟨p1, p2, p3⟩ := hpass ha
    simp [ha, p1, p2, p3, Nat.add_assoc]
  · simp [ha]

theorem collect_done_log {cfg : Config} {inp : Input} {f : Files} {log : List LogLine}
    {c : Collected} (h : collect cfg inp f log = Collect.done c) :
    c.log = log ++ scanLinesBefore inp f ++ markerLine cfg f.hsgr :: scanLinesAfter cfg inp f := by
  unfold collect at h
  simp only [openFile_eq_atOffset, readUnsigned_atOffset, read_atOffset] at h
  split_ifs at h with a1 a2 a3 a4 <;>
  · cases h
    rw [List.drop_zero] at a4
    simp [scanLinesBefore, scanLinesAfter, markerLine, a4, Nat.add_assoc]

theorem collect_done_pass {cfg : Config} {inp : Input} {f : Files} {log : List LogLine}
    {c : Collected} (h : collect cfg inp f log = Collect.done c) :
    cfg.assertions = true →
      leValue (f.names.take 4) ≠ 0 ∧
      leValue ((f.hsgr.drop (cfg.sizeofUUID + 4)).take 4) ≠ 0 ∧
      leValue ((f.hsgr.drop (cfg.sizeofUUID + 8)).take 4) ≠ 0 := by
  intro ha
  unfold collect at h
  simp only [openFile_eq_atOffset, readUnsigned_atOffset, read_atOffset] at h
  split_ifs at h with a1 a2 a3 a4 <;>
  · simp [ha, Nat.add_assoc] at a1 a2 a3
    exact ⟨a1, a2, a3⟩

theorem fill_log (cfg : Config) (inp : Input) (c : Collected) :
    (fill cfg inp c).2 = c.log ++ fillLines cfg inp c.layout := by
  simp [fill, fillLines]

theorem marker_drop (cfg : Config) (u rest : List Byte) (k : Nat)
    (hu : u.length = cfg.sizeofUUID) :
    (u ++ rest).drop (cfg.sizeofUUID + k) = rest.drop k := by
  rw [← hu]
  exact List.drop_append k

theorem markerLine_of_marker (cfg : Config) (u rest : List Byte)
    (hu : u.length = cfg.sizeofUUID) :
    markerLine cfg (u ++ rest) =
      if cfg.TestGraphUtil u = false then
        ⟨.logWARNING,
          ".hsgr was prepared with different build. Reprocess to get rid of this warning."⟩
      else
        ⟨.logINFO, "UUID checked out ok"⟩ := by
  have hst : store cfg.defaultUUID u = u :=
    store_full _ _ (by rw [hu, cfg.defaultUUID_length])
  simp [markerLine, List.take_left' hu, hst]

theorem published_withMarker (cfg : Config) (inp : Input) (u v rest : List Byte)
    (hfile : inp.hsgr_path.file = some (u ++ rest))
    (hu : u.length = cfg.sizeofUUID) (hv : v.length = cfg.sizeofUUID)
    (d : DataRegion) (hd : (main cfg inp).data = some d) :
    ∃ ram_index nodes edges names c c',
      checkInputs inp = Except.ok ⟨u ++ rest, ram_index, nodes, edges, names⟩ ∧
      collect cfg inp ⟨u ++ rest, ram_index, nodes, edges, names⟩ firstLog = Collect.done c ∧
      checkInputs (withMarker inp v rest) =
        Except.ok ⟨v ++ rest, ram_index, nodes, edges, names⟩ ∧
      collect cfg (withMarker inp v rest) ⟨v ++ rest, ram_index, nodes, edges, names⟩ firstLog =
        Collect.done c' := by
  obtain ⟨f, c, hc, hdone, -⟩ := main_data hd
  obtain ⟨k1, k2, k3, k4, fh, fr, fn, fe, fm, n0, e0⟩ := checkInputs_ok hc
  rw [hfile] at fh
  have eh : f.hsgr = u ++ rest := (Option.some.inj fh).symm
  obtain ⟨fhsgr, fram, fnodes, fedges, fnames⟩ := f
  simp only at eh fr fn fe fm n0 e0
  subst eh
  have hc' : checkInputs (withMarker inp v rest) =
      Except.ok ⟨v ++ rest, fram, fnodes, fedges, fnames⟩ :=
    checkInputs_of_files _ _ _ _ _ _ k1 k2 k3 k4 rfl fr fn fe fm n0 e0
  have hpass := collect_done_pass hdone
  have hpass' : cfg.assertions = true →
      leValue (fnames.take 4) ≠ 0 ∧
      leValue (((v ++ rest).drop (cfg.sizeofUUID + 4)).take 4) ≠ 0 ∧
      leValue (((v ++ rest).drop (cfg.sizeofUUID + 8)).take 4) ≠ 0 := by
    intro ha
    have hp := hpass ha
    simp only [marker_drop cfg u rest _ hu] at hp
    simp only [marker_drop cfg v rest _ hv]
    exact hp
  obtain ⟨c', hdone'⟩ := collect_passes cfg (withMarker inp v rest)
    ⟨v ++ rest, fram, fnodes, fedges, fnames⟩ firstLog hpass'
  exact ⟨fram, fnodes, fedges, fnames, c, c', hc, hdone, hc', hdone'⟩

theorem scannedLayout_withMarker (cfg : Config) (inp : Input)
    (u v rest ram_index nodes edges names : List Byte)
    (hu : u.length = cfg.sizeofUUID) (hv : v.length = cfg.sizeofUUID) :
    scannedLayout cfg (withMarker inp v rest) ⟨v ++ rest, ram_index, nodes, edges, names⟩ =
      scannedLayout cfg (withMarker inp u rest) ⟨u ++ rest, ram_index, nodes, edges, names⟩ := by
  simp only [scannedLayout, withMarker, marker_drop cfg u rest _ hu, marker_drop cfg v rest _ hv,
    List.drop_left' hu, List.drop_left' hv]

theorem filledRegion_withMarker (cfg : Config) (inp : Input)
    (u v rest ram_index nodes edges names : List Byte)
    (hu : u.length = cfg.sizeofUUID) (hv : v.length = cfg.sizeofUUID) :
    filledRegion cfg (withMarker inp v rest) ⟨v ++ rest, ram_index, nodes, edges, names⟩ =
      filledRegion cfg (withMarker inp u rest) ⟨u ++ rest, ram_index, nodes, edges, names⟩ := by
  have hl := scannedLayout_withMarker cfg inp u v rest ram_index nodes edges names hu hv
  simp only [filledRegion, hl, Nat.add_assoc, marker_drop cfg u rest _ hu,
    marker_drop cfg v rest _ hv]
  simp only [withMarker]

theorem scanLinesAfter_withMarker (cfg : Config) (inp : Input)
    (u v rest ram_index nodes edges names : List Byte)
    (hu : u.length = cfg.sizeofUUID) (hv : v.length = cfg.sizeofUUID) :
    scanLinesAfter cfg (withMarker inp v rest) ⟨v ++ rest, ram_index, nodes, edges, names⟩ =
      scanLinesAfter cfg (withMarker inp u rest)
        ⟨u ++ rest, ram_index, nodes, edges, names⟩ := by
  simp only [scanLinesAfter, withMarker, marker_drop cfg u rest _ hu,
    marker_drop cfg v rest _ hv, List.drop_left' hu, List.drop_left' hv]

theorem marker_runs (cfg : Config) (inp : Input)
    (u1 u2 rest ram_index nodes edges names : List Byte) (c1 c2 : Collected)
    (hu1 : u1.length = cfg.sizeofUUID) (hu2 : u2.length = cfg.sizeofUUID)
    (hmatch : cfg.TestGraphUtil u1 = true) (hmismatch : cfg.TestGraphUtil u2 = false)
    (hc1 : checkInputs (withMarker inp u1 rest) =
      Except.ok ⟨u1 ++ rest, ram_index, nodes, edges, names⟩)
    (hd1 : collect cfg (withMarker inp u1 rest) ⟨u1 ++ rest, ram_index, nodes, edges, names⟩
      firstLog = Collect.done c1)
    (hc2 : checkInputs (withMarker inp u2 rest) =
      Except.ok ⟨u2 ++ rest, ram_index, nodes, edges, names⟩)
    (hd2 : collect cfg (withMarker inp u2 rest) ⟨u2 ++ rest, ram_index, nodes, edges, names⟩
      firstLog = Collect.done c2) :
    (main cfg (withMarker inp u1 rest)).exit = Exit.returned 0 ∧
    (main cfg (withMarker inp u2 rest)).exit = Exit.returned 0 ∧
    (∃ l, (main cfg (withMarker inp u1 rest)).layout = some l ∧
      (main cfg (withMarker inp u2 rest)).layout = some l) ∧
    (∃ d, (main cfg (withMarker inp u1 rest)).data = some d ∧
      (main cfg (withMarker inp u2 rest)).data = some d) ∧
    ∃ pre post,
      (main cfg (withMarker inp u1 rest)).log =
        pre ++ ⟨LogLevel.logINFO, "UUID checked out ok"⟩ :: post ∧
      (main cfg (withMarker inp u2 rest)).log =
        pre ++ ⟨LogLevel.logWARNING,
          ".hsgr was prepared with different build. Reprocess to get rid of this warning."⟩ ::
          post := by
  have hl := scannedLayout_withMarker cfg inp u1 u2 rest ram_index nodes edges names hu1 hu2
  have hr := filledRegion_withMarker cfg inp u1 u2 rest ram_index nodes edges names hu1 hu2
  have ha := scanLinesAfter_withMarker cfg inp u1 u2 rest ram_index nodes edges names hu1 hu2
  have hm1 := markerLine_of_marker cfg u1 rest hu1
  have hm2 := markerLine_of_marker cfg u2 rest hu2
  simp only [hmatch] at hm1
  simp only [hmismatch] at hm2
  have hlog1 := collect_done_log hd1
  have hlog2 := collect_done_log hd2
  have hlay1 := (collect_done hd1).1
  have hlay2 := (collect_done hd2).1
  rw [main_of_done hc1 hd1, main_of_done hc2 hd2]
  refine ⟨rfl, rfl, ⟨_, rfl, by rw [hl]⟩, ⟨_, rfl, by rw [hr]⟩, ?_⟩
  refine ⟨firstLog ++ scanLinesBefore (withMarker inp u1 rest)
      ⟨u1 ++ rest, ram_index, nodes, edges, names⟩,
    scanLinesAfter cfg (withMarker inp u1 rest) ⟨u1 ++ rest, ram_index, nodes, edges, names⟩ ++
      fillLines cfg (withMarker inp u1 rest)
        (scannedLayout cfg (withMarker inp u1 rest)
          ⟨u1 ++ rest, ram_index, nodes, edges, names⟩), ?_, ?_⟩
  · simp only [fill_log, hlog1, hlay1]
    rw [hm1]
    simp
  · simp only [fill_log, hlog2, hlay2, ha, hl]
    rw [hm2]
    simp [scanLinesBefore, fillLines, withMarker]

theorem published_withHsgr (cfg : Config) (inp : Input) (hsgr hsgr' : List Byte)
    (hfile : inp.hsgr_path.file = some hsgr)
    (h4 : (hsgr'.drop (cfg.sizeofUUID + 4)).take 4 = (hsgr.drop (cfg.sizeofUUID + 4)).take 4)
    (h8 : (hsgr'.drop (cfg.sizeofUUID + 8)).take 4 = (hsgr.drop (cfg.sizeofUUID + 8)).take 4)
    (d : DataRegion) (hd : (main cfg inp).data = some d) :
    ∃ f c, checkInputs (withHsgr inp hsgr') = Except.ok f ∧ f.hsgr = hsgr' ∧
      collect cfg (withHsgr inp hsgr') f firstLog = Collect.done c := by
  obtain ⟨f, c, hc, hdone, -⟩ := main_data hd
  obtain ⟨k1, k2, k3, k4, fh, fr, fn, fe, fm, n0, e0⟩ := checkInputs_ok hc
  rw [hfile] at fh
  have eh : f.hsgr = hsgr := (Option.some.inj fh).symm
  have hc' : checkInputs (withHsgr inp hsgr') =
      Except.ok ⟨hsgr', f.ram_index, f.nodes, f.edges, f.names⟩ :=
    checkInputs_of_files _ _ _ _ _ _ k1 k2 k3 k4 rfl fr fn fe fm n0 e0
  have hpass := collect_done_pass hdone
  rw [eh] at hpass
  have hpass' : cfg.assertions = true →
      leValue (f.names.take 4) ≠ 0 ∧
      leValue ((hsgr'.drop (cfg.sizeofUUID + 4)).take 4) ≠ 0 ∧
      leValue ((hsgr'.drop (cfg.sizeofUUID + 8)).take 4) ≠ 0 := by
    intro ha
    rw [h4, h8]
    exact hpass ha
  obtain ⟨c', hdone'⟩ := collect_passes cfg (withHsgr inp hsgr')
    ⟨hsgr', f.ram_index, f.nodes, f.edges, f.names⟩ firstLog hpass'
  exact ⟨_, c', hc', rfl, hdone'⟩

theorem main_no_region_of_empty (cfg : Config) (inp : Input)
    (hempty : inp.node_data_path.file = some [] ∨ inp.edge_data_path.file = some []) :
    (main cfg inp).layout = none ∧ (main cfg inp).data = none := by
  cases hc : checkInputs inp with
  | error t => cases t <;> simp [main, hc]
  | ok f =>
    obtain ⟨-, -, -, -, -, -, fn, fe, -, n0, e0⟩ := checkInputs_ok hc
    cases hempty with
    | inl h =>
      rw [h] at fn
      have hnil : f.nodes = [] := (Option.some.inj fn).symm
      rw [hnil] at n0
      exact absurd rfl n0
    | inr h =>
      rw [h] at fe
      have hnil : f.edges = [] := (Option.some.inj fe).symm
      rw [hnil] at e0
      exact absurd rfl e0

/-! ## The claims -/

/-- C1 (the claim as stated fails): the graph file of `zeroNodesInput` declares zero
nodes, all artifact files exist and are not empty, and the process is stopped by the
assertion, yet the layout region has been allocated by then. -/
theorem C1_layout_region_allocated_before_abort :
    leValue ((zeroNodesHsgr.drop (demoConfig.sizeofUUID + 4)).take 4) = 0 ∧
    checkInputs zeroNodesInput =
      Except.ok ⟨zeroNodesHsgr, demoRamIndex, demoNodes, demoEdges, demoNames⟩ ∧
    (main demoConfig zeroNodesInput).exit = Exit.assertionFailed "number of nodes is zero" ∧
    (main demoConfig zeroNodesInput).layout ≠ none ∧
    (main demoConfig zeroNodesInput).data = none :=
  ⟨by decide, rfl, by decide, by decide, by decide⟩

/-- C1 (amended): with assertions active, a complete configuration, the five artifact
files existing, nodes and edges files not empty and a names file that declares a
nonzero index count, a graph file that declares zero nodes stops the process at the
assertion `number of nodes is zero`; at that point the layout region has been
allocated and the data region has not. -/
theorem C1_zero_nodes_assertion (cfg : Config) (inp : Input)
    (hsgr ram_index nodes edges names : List Byte)
    (h1 : inp.holds_hsgrData = true) (h2 : inp.holds_ramIndex = true)
    (h3 : inp.holds_nodesData = true) (h4 : inp.holds_edgesData = true)
    (hh : inp.hsgr_path.file = some hsgr) (hr : inp.ram_index_path.file = some ram_index)
    (hn : inp.node_data_path.file = some nodes) (he : inp.edge_data_path.file = some edges)
    (hm : inp.name_data_path.file = some names)
    (hn0 : nodes.length ≠ 0) (he0 : edges.length ≠ 0)
    (hassert : cfg.assertions = true)
    (hnames : leValue (names.take 4) ≠ 0)
    (hzero : leValue ((hsgr.drop (cfg.sizeofUUID + 4)).take 4) = 0) :
    (main cfg inp).exit = Exit.assertionFailed "number of nodes is zero" ∧
    (∃ l, (main cfg inp).layout = some l) ∧
    (main cfg inp).data = none := by
  have hc := checkInputs_of_files inp hsgr ram_index nodes edges names h1 h2 h3 h4 hh hr hn
    he hm hn0 he0
  simp [main, hc, collect, openFile_eq_atOffset, readUnsigned_atOffset, read_atOffset,
    hassert, hnames, hzero]

/-- Witness of the amended C1 on `zeroNodesInput`. -/
theorem C1_zero_nodes_assertion_witness :
    (main demoConfig zeroNodesInput).exit = Exit.assertionFailed "number of nodes is zero" ∧
    (∃ l, (main demoConfig zeroNodesInput).layout = some l) ∧
    (main demoConfig zeroNodesInput).data = none :=
  C1_zero_nodes_assertion demoConfig zeroNodesInput zeroNodesHsgr demoRamIndex demoNodes
    demoEdges demoNames rfl rfl rfl rfl rfl rfl rfl rfl rfl (by decide) (by decide) rfl
    (by decide) (by decide)

/-- C3 (what the code does): when the configuration is complete and one of the five
artifact files does not exist, `main` throws a string literal, which the handler for
`std::exception` does not catch: nothing is logged about the failure and the process
ends in `std::terminate` instead of returning 0.  No shared region has been
allocated. -/
theorem C3_missing_file_terminates (cfg : Config) (inp : Input)
    (h1 : inp.holds_hsgrData = true) (h2 : inp.holds_ramIndex = true)
    (h3 : inp.holds_nodesData = true) (h4 : inp.holds_edgesData = true)
    (hmissing : inp.hsgr_path.file = none ∨ inp.ram_index_path.file = none ∨
      inp.node_data_path.file = none ∨ inp.edge_data_path.file = none ∨
      inp.name_data_path.file = none) :
    (∃ text, (main cfg inp).exit = Exit.terminated text ∧
      text ∈ [".hsgr not found", ".ramIndex not found", ".nodes not found",
        ".edges not found", ".names not found"]) ∧
    (main cfg inp).exit ≠ Exit.returned 0 ∧
    (main cfg inp).log = [⟨LogLevel.logINFO, "Checking input parameters"⟩] ∧
    (main cfg inp).layout = none ∧
    (main cfg inp).data = none := by
  cases hh : inp.hsgr_path.file with
  | none => simp [main, checkInputs, h1, h2, h3, h4, hh]
  | some hsgr =>
  cases hr : inp.ram_index_path.file with
  | none => simp [main, checkInputs, h1, h2, h3, h4, hh, hr]
  | some ram =>
  cases hn : inp.node_data_path.file with
  | none => simp [main, checkInputs, h1, h2, h3, h4, hh, hr, hn]
  | some nodes =>
  cases he : inp.edge_data_path.file with
  | none => simp [main, checkInputs, h1, h2, h3, h4, hh, hr, hn, he]
  | some edges =>
  cases hm : inp.name_data_path.file with
  | none => simp [main, checkInputs, h1, h2, h3, h4, hh, hr, hn, he, hm]
  | some names => simp [hh, hr, hn, he, hm] at hmissing

/-- Witness of C3 on the demo input without its graph file. -/
theorem C3_missing_file_terminates_witness :
    (∃ text, (main demoConfig missingHsgrInput).exit = Exit.terminated text ∧
      text ∈ [".hsgr not found", ".ramIndex not found", ".nodes not found",
        ".edges not found", ".names not found"]) ∧
    (main demoConfig missingHsgrInput).exit ≠ Exit.returned 0 ∧
    (main demoConfig missingHsgrInput).log =
      [⟨LogLevel.logINFO, "Checking input parameters"⟩] ∧
    (main demoConfig missingHsgrInput).layout = none ∧
    (main demoConfig missingHsgrInput).data = none :=
  C3_missing_file_terminates demoConfig missingHsgrInput rfl rfl rfl rfl (Or.inl rfl)

/-- C4 (the claim as stated fails): on the demo input the edge count recorded in the
layout is 1, the `unsigned` that follows the node count, while the `unsigned` that
follows two node records placed after the node count has another value; and the node
section is not filled from the bytes right after the node count. -/
theorem C4_edge_count_precedes_node_records :
    (main demoConfig demoInput).layout = some demoLayout ∧
    (main demoConfig demoInput).data = some demoRegion ∧
    demoLayout.graph_node_list_size = 2 ∧
    demoLayout.graph_edge_list_size = 1 ∧
    leValue ((demoHsgr.drop (demoConfig.sizeofUUID + 4 + 4 + 2 * demoConfig.sizeofStrNode)).take
      4) ≠ 1 ∧
    demoRegion.graph_node_list ≠
      (demoHsgr.drop (demoConfig.sizeofUUID + 4 + 4)).take (2 * demoConfig.sizeofStrNode) := by
  decide

/-- C4 (amended): the graph file is read in the order identity marker, checksum, node
count, edge count, node records, edge records.  In a run that fills the data region
the recorded node count and edge count are the two `unsigned` values that follow the
checksum, the node section is filled from the bytes that follow the edge count, and
the edge section from the bytes that follow the node records. -/
theorem C4_graph_file_order (cfg : Config) (inp : Input) (l : SharedDataLayout)
    (d : DataRegion) (hsgr : List Byte)
    (hl : (main cfg inp).layout = some l) (hd : (main cfg inp).data = some d)
    (hfile : inp.hsgr_path.file = some hsgr) :
    l.graph_node_list_size = leValue ((hsgr.drop (cfg.sizeofUUID + 4)).take 4) ∧
    l.graph_edge_list_size = leValue ((hsgr.drop (cfg.sizeofUUID + 4 + 4)).take 4) ∧
    d.graph_node_list =
      (hsgr.drop (cfg.sizeofUUID + 4 + 4 + 4)).take
        (l.graph_node_list_size * cfg.sizeofStrNode) ∧
    d.graph_edge_list =
      (hsgr.drop (cfg.sizeofUUID + 4 + 4 + 4 + l.graph_node_list_size * cfg.sizeofStrNode)).take
        (l.graph_edge_list_size * cfg.sizeofStrEdge) := by
  obtain ⟨f, h1, h2, h3, -⟩ := main_layout hd hl
  have hf := (checkInputs_ok h1).2.2.2.2.1
  rw [hfile] at hf
  have he : f.hsgr = hsgr := (Option.some.inj hf).symm
  subst h2 h3
  simp [scannedLayout, filledRegion, he, Nat.add_assoc]

/-- Witness of the amended C4 on the demo input. -/
theorem C4_graph_file_order_witness :
    demoLayout.graph_node_list_size =
      leValue ((demoHsgr.drop (demoConfig.sizeofUUID + 4)).take 4) ∧
    demoLayout.graph_edge_list_size =
      leValue ((demoHsgr.drop (demoConfig.sizeofUUID + 4 + 4)).take 4) ∧
    demoRegion.graph_node_list =
      (demoHsgr.drop (demoConfig.sizeofUUID + 4 + 4 + 4)).take
        (demoLayout.graph_node_list_size * demoConfig.sizeofStrNode) ∧
    demoRegion.graph_edge_list =
      (demoHsgr.drop (demoConfig.sizeofUUID + 4 + 4 + 4 +
        demoLayout.graph_node_list_size * demoConfig.sizeofStrNode)).take
        (demoLayout.graph_edge_list_size * demoConfig.sizeofStrEdge) :=
  C4_graph_file_order demoConfig demoInput demoLayout demoRegion demoHsgr
    (by decide) (by decide) (by decide)

/-- C5: when the edges file declares `n` records and holds `n` complete records, a run
that fills the data region leaves `n` entries in each of the via node, name id and
turn instruction lists, and entry `i` of each list is the corresponding member of
record `i` of the file. -/
theorem C5_edge_records_decoded (cfg : Config) (inp : Input) (d : DataRegion)
    (edges : List Byte) (n : Nat)
    (hrun : (main cfg inp).data = some d)
    (hfile : inp.edge_data_path.file = some edges)
    (hdecl : leValue (edges.take 4) = n)
    (hfull : 4 + n * cfg.sizeofOriginalEdgeData ≤ edges.length) :
    d.via_node.length = n ∧ d.name_id.length = n ∧ d.turn_instruction.length = n ∧
    ∀ i, i < n →
      d.via_node[i]? = some (cfg.viaNode
        ((edges.drop (4 + i * cfg.sizeofOriginalEdgeData)).take cfg.sizeofOriginalEdgeData)) ∧
      d.name_id[i]? = some (cfg.nameID
        ((edges.drop (4 + i * cfg.sizeofOriginalEdgeData)).take cfg.sizeofOriginalEdgeData)) ∧
      d.turn_instruction[i]? = some (cfg.turnInstruction
        ((edges.drop (4 + i * cfg.sizeofOriginalEdgeData)).take
          cfg.sizeofOriginalEdgeData)) := by
  obtain ⟨f, c, h1, -, h3⟩ := main_data hrun
  have hf := (checkInputs_ok h1).2.2.2.2.2.2.2.1
  rw [hfile] at hf
  have he : f.edges = edges := (Option.some.inj hf).symm
  subst h3
  simp only [filledRegion, he, hdecl]
  obtain ⟨l1, l2, l3⟩ := edgeLoop_length cfg n (IFStream.atOffset edges 4)
    cfg.defaultOriginalEdgeData
  refine ⟨l1, l2, l3, ?_⟩
  intro i hi
  have hmul : (i + 1) * cfg.sizeofOriginalEdgeData ≤ n * cfg.sizeofOriginalEdgeData :=
    Nat.mul_le_mul_right _ (by omega)
  exact edgeLoop_entries cfg edges n 4 cfg.defaultOriginalEdgeData
    (le_of_eq cfg.defaultOriginalEdgeData_length) i hi (by omega)

/-- Witness of C5 on the demo input, whose edges file declares and holds two records. -/
theorem C5_edge_records_decoded_witness :
    demoRegion.via_node.length = 2 ∧ demoRegion.name_id.length = 2 ∧
    demoRegion.turn_instruction.length = 2 ∧
    ∀ i, i < 2 →
      demoRegion.via_node[i]? = some (demoConfig.viaNode
        ((demoEdges.drop (4 + i * demoConfig.sizeofOriginalEdgeData)).take
          demoConfig.sizeofOriginalEdgeData)) ∧
      demoRegion.name_id[i]? = some (demoConfig.nameID
        ((demoEdges.drop (4 + i * demoConfig.sizeofOriginalEdgeData)).take
          demoConfig.sizeofOriginalEdgeData)) ∧
      demoRegion.turn_instruction[i]? = some (demoConfig.turnInstruction
        ((demoEdges.drop (4 + i * demoConfig.sizeofOriginalEdgeData)).take
          demoConfig.sizeofOriginalEdgeData)) :=
  C5_edge_records_decoded demoConfig demoInput demoRegion demoEdges 2
    (by decide) (by decide) (by decide) (by decide)

/-- C6: in a run that fills the data region, the timestamp section holds `n/a` when
the timestamp file is absent or its first line is empty, and otherwise the first
`min 25 length` characters of the first line; `timestamp_length` is the number of
bytes in the section and lies between 1 and 25. -/
theorem C6_timestamp_stored (cfg : Config) (inp : Input) (l : SharedDataLayout)
    (d : DataRegion)
    (hl : (main cfg inp).layout = some l) (hd : (main cfg inp).data = some d) :
    (inp.timestamp_path.file = none → d.timestamp = [110, 47, 97]) ∧
    (∀ content, inp.timestamp_path.file = some content → getline content = [] →
      d.timestamp = [110, 47, 97]) ∧
    (∀ content, inp.timestamp_path.file = some content → getline content ≠ [] →
      d.timestamp = (getline content).take (min 25 (getline content).length)) ∧
    ([110, 47, 97] : List Byte).length = 3 ∧
    l.timestamp_length = d.timestamp.length ∧
    1 ≤ l.timestamp_length ∧ l.timestamp_length ≤ 25 := by
  obtain ⟨f, -, h2, h3, -⟩ := main_layout hd hl
  subst h2 h3
  have ht : (filledRegion cfg inp f).timestamp = loadTimestamp inp.timestamp_path.file := rfl
  have hlen : (scannedLayout cfg inp f).timestamp_length =
      (loadTimestamp inp.timestamp_path.file).length := rfl
  rw [ht, hlen]
  refine ⟨?_, ?_, ?_, rfl, rfl, (loadTimestamp_length _).1, (loadTimestamp_length _).2⟩
  · intro h
    rw [h, loadTimestamp_none]
  · intro content h hline
    rw [h, loadTimestamp_empty content hline]
  · intro content h hline
    rw [h, loadTimestamp_line content hline]

/-- Witness of C6 on the demo input, whose timestamp file starts with a ten character
line. -/
theorem C6_timestamp_stored_witness :
    (demoInput.timestamp_path.file = none → demoRegion.timestamp = [110, 47, 97]) ∧
    (∀ content, demoInput.timestamp_path.file = some content → getline content = [] →
      demoRegion.timestamp = [110, 47, 97]) ∧
    (∀ content, demoInput.timestamp_path.file = some content → getline content ≠ [] →
      demoRegion.timestamp = (getline content).take (min 25 (getline content).length)) ∧
    ([110, 47, 97] : List Byte).length = 3 ∧
    demoLayout.timestamp_length = demoRegion.timestamp.length ∧
    1 ≤ demoLayout.timestamp_length ∧ demoLayout.timestamp_length ≤ 25 :=
  C6_timestamp_stored demoConfig demoInput demoLayout demoRegion (by decide) (by decide)

/-- C7: take two inputs that differ only in the identity marker at the start of the
graph file, one marker accepted by `TestGraphUtil` and the other rejected.  If one of
the two runs fills the data region, both do: both return 0, with the same layout
region and the same data region, and the two logs differ in exactly one line, where
the run with the accepted marker reports it as checked and the other logs the
warning. -/
theorem C7_marker_mismatch_only_warns (cfg : Config) (inp : Input) (u1 u2 rest : List Byte)
    (hu1 : u1.length = cfg.sizeofUUID) (hu2 : u2.length = cfg.sizeofUUID)
    (hmatch : cfg.TestGraphUtil u1 = true) (hmismatch : cfg.TestGraphUtil u2 = false)
    (hpub : (main cfg (withMarker inp u1 rest)).data ≠ none ∨
      (main cfg (withMarker inp u2 rest)).data ≠ none) :
    (main cfg (withMarker inp u1 rest)).exit = Exit.returned 0 ∧
    (main cfg (withMarker inp u2 rest)).exit = Exit.returned 0 ∧
    (∃ l, (main cfg (withMarker inp u1 rest)).layout = some l ∧
      (main cfg (withMarker inp u2 rest)).layout = some l) ∧
    (∃ d, (main cfg (withMarker inp u1 rest)).data = some d ∧
      (main cfg (withMarker inp u2 rest)).data = some d) ∧
    ∃ pre post,
      (main cfg (withMarker inp u1 rest)).log =
        pre ++ ⟨LogLevel.logINFO, "UUID checked out ok"⟩ :: post ∧
      (main cfg (withMarker inp u2 rest)).log =
        pre ++ ⟨LogLevel.logWARNING,
          ".hsgr was prepared with different build. Reprocess to get rid of this warning."⟩ ::
          post := by
  cases hpub with
  | inl h =>
    obtain ⟨d, hd⟩ := Option.ne_none_iff_exists'.mp h
    obtain ⟨ram_index, nodes, edges, names, c1, c2, hc1, hd1, hc2, hd2⟩ :=
      published_withMarker cfg (withMarker inp u1 rest) u1 u2 rest rfl hu1 hu2 d hd
    exact marker_runs cfg inp u1 u2 rest ram_index nodes edges names c1 c2 hu1 hu2 hmatch
      hmismatch hc1 hd1 hc2 hd2
  | inr h =>
    obtain ⟨d, hd⟩ := Option.ne_none_iff_exists'.mp h
    obtain ⟨ram_index, nodes, edges, names, c2, c1, hc2, hd2, hc1, hd1⟩ :=
      published_withMarker cfg (withMarker inp u2 rest) u2 u1 rest rfl hu2 hu1 d hd
    exact marker_runs cfg inp u1 u2 rest ram_index nodes edges names c1 c2 hu1 hu2 hmatch
      hmismatch hc1 hd1 hc2 hd2

/-- Witness of C7 on the demo input: the marker of the build against another one. -/
theorem C7_marker_mismatch_only_warns_witness :
    (main demoConfig (withMarker demoInput [1, 2, 3, 4] (demoHsgr.drop 4))).exit =
      Exit.returned 0 ∧
    (main demoConfig (withMarker demoInput [9, 9, 9, 9] (demoHsgr.drop 4))).exit =
      Exit.returned 0 ∧
    (∃ l, (main demoConfig (withMarker demoInput [1, 2, 3, 4] (demoHsgr.drop 4))).layout =
        some l ∧
      (main demoConfig (withMarker demoInput [9, 9, 9, 9] (demoHsgr.drop 4))).layout = some l) ∧
    (∃ d, (main demoConfig (withMarker demoInput [1, 2, 3, 4] (demoHsgr.drop 4))).data =
        some d ∧
      (main demoConfig (withMarker demoInput [9, 9, 9, 9] (demoHsgr.drop 4))).data = some d) ∧
    ∃ pre post,
      (main demoConfig (withMarker demoInput [1, 2, 3, 4] (demoHsgr.drop 4))).log =
        pre ++ ⟨LogLevel.logINFO, "UUID checked out ok"⟩ :: post ∧
      (main demoConfig (withMarker demoInput [9, 9, 9, 9] (demoHsgr.drop 4))).log =
        pre ++ ⟨LogLevel.logWARNING,
          ".hsgr was prepared with different build. Reprocess to get rid of this warning."⟩ ::
          post :=
  C7_marker_mismatch_only_warns demoConfig demoInput [1, 2, 3, 4] [9, 9, 9, 9]
    (demoHsgr.drop 4) (by decide) (by decide) (by decide) (by decide) (Or.inl (by decide))

/-- C8 (the claim as stated fails): in `emptyNodesNoEdgesInput` the nodes file has
length zero, yet the run does not end with a caught failure that names the empty file:
the existence check of the edges file comes first, so the process is terminated,
nothing about a failure is logged and `main` does not return 0. -/
theorem C8_empty_nodes_without_edges_terminates :
    emptyNodesNoEdgesInput.node_data_path.file = some [] ∧
    (main demoConfig emptyNodesNoEdgesInput).exit = Exit.terminated ".edges not found" ∧
    (main demoConfig emptyNodesNoEdgesInput).exit ≠ Exit.returned 0 ∧
    (main demoConfig emptyNodesNoEdgesInput).log =
      [⟨LogLevel.logINFO, "Checking input parameters"⟩] := by
  decide

/-- C8 (amended): in every run in which the nodes file or the edges file exists with
length zero, neither shared region is ever allocated.  When moreover the configuration
holds its four keys and the five artifact files exist, so that the run reaches the
emptiness checks, `main` throws an `OSRMException` naming the empty file (the nodes
file when both are empty), the handler logs it and `main` returns 0. -/
theorem C8_empty_file_aborts (cfg : Config) (inp : Input)
    (hempty : inp.node_data_path.file = some [] ∨ inp.edge_data_path.file = some []) :
    (main cfg inp).layout = none ∧
    (main cfg inp).data = none ∧
    (inp.holds_hsgrData = true → inp.holds_ramIndex = true →
      inp.holds_nodesData = true → inp.holds_edgesData = true →
      inp.hsgr_path.file ≠ none → inp.ram_index_path.file ≠ none →
      inp.node_data_path.file ≠ none → inp.edge_data_path.file ≠ none →
      inp.name_data_path.file ≠ none →
      (main cfg inp).exit = Exit.returned 0 ∧
      (main cfg inp).log =
        [⟨LogLevel.logINFO, "Checking input parameters"⟩,
         ⟨LogLevel.logWARNING, "caught exception: " ++
            (if inp.node_data_path.file = some [] then "nodes file is empty"
             else "edges file is empty")⟩]) := by
  obtain ⟨hl, hd⟩ := main_no_region_of_empty cfg inp hempty
  refine ⟨hl, hd, ?_⟩
  intro h1 h2 h3 h4 hh hr hn he hm
  obtain ⟨hsgr, hh⟩ := Option.ne_none_iff_exists'.mp hh
  obtain ⟨ram_index, hr⟩ := Option.ne_none_iff_exists'.mp hr
  obtain ⟨nodes, hn⟩ := Option.ne_none_iff_exists'.mp hn
  obtain ⟨edges, he⟩ := Option.ne_none_iff_exists'.mp he
  obtain ⟨names, hm⟩ := Option.ne_none_iff_exists'.mp hm
  by_cases hn0 : nodes = []
  · simp [main, checkInputs, h1, h2, h3, h4, hh, hr, hn, he, hm, hn0]
  · have he0 : edges = [] := by
      cases hempty with
      | inl h =>
        rw [hn] at h
        exact absurd (Option.some.inj h) hn0
      | inr h =>
        rw [he] at h
        exact Option.some.inj h
    simp [main, checkInputs, h1, h2, h3, h4, hh, hr, hn, he, hm, hn0, he0]

/-- Witness of the amended C8 on the demo input with an empty edges file: no region is
allocated, and since the configuration is complete and the five files exist, the
failure naming the edges file is caught and logged and `main` returns 0. -/
theorem C8_empty_file_aborts_witness :
    (main demoConfig emptyEdgesInput).layout = none ∧
    (main demoConfig emptyEdgesInput).data = none ∧
    (main demoConfig emptyEdgesInput).exit = Exit.returned 0 ∧
    (main demoConfig emptyEdgesInput).log =
      [⟨LogLevel.logINFO, "Checking input parameters"⟩,
       ⟨LogLevel.logWARNING, "caught exception: " ++
          (if emptyEdgesInput.node_data_path.file = some [] then "nodes file is empty"
           else "edges file is empty")⟩] :=
  have h := C8_empty_file_aborts demoConfig emptyEdgesInput (Or.inr rfl)
  have h2 := h.2.2 rfl rfl rfl rfl (by decide) (by decide) (by decide) (by decide)
    (by decide)
  ⟨h.1, h.2.1, h2.1, h2.2⟩

/-- C9 (the claim as stated fails): the short names file declares two index entries,
the run fills the data region, and the name index section receives four bytes, not
`2 * 4`; the name character section receives none of the three declared. -/
theorem C9_short_file_fills_less :
    (main demoConfig shortNamesInput).exit = Exit.returned 0 ∧
    (main demoConfig shortNamesInput).layout.map (fun l => l.name_index_list_size) = some 2 ∧
    (main demoConfig shortNamesInput).layout.map (fun l => l.name_char_list_size) = some 3 ∧
    (main demoConfig shortNamesInput).data.map (fun d => d.name_index.length) = some 4 ∧
    (main demoConfig shortNamesInput).data.map (fun d => d.name_char.length) = some 0 := by
  decide

/-- C9 (amended): in a run that fills the data region, each section that is copied
directly (name index, name characters, search tree nodes, graph nodes, graph edges) is
read with a request of count times element size bytes, the count being the one in the
header of its file, and receives that many bytes when the file still holds them and
otherwise the bytes that are left, never more.  A names file that declares 5000 index
entries and 120000 characters and holds them yields `5000 * 4` and `120000` bytes. -/
theorem C9_direct_copy_lengths (cfg : Config) (inp : Input) (l : SharedDataLayout)
    (d : DataRegion) (hsgr ram_index names : List Byte)
    (hl : (main cfg inp).layout = some l) (hd : (main cfg inp).data = some d)
    (hh : inp.hsgr_path.file = some hsgr) (hr : inp.ram_index_path.file = some ram_index)
    (hm : inp.name_data_path.file = some names) :
    (l.name_index_list_size = leValue (names.take 4) ∧
     l.name_char_list_size = leValue ((names.drop 4).take 4) ∧
     l.r_search_tree_size = leValue (ram_index.take 4) ∧
     l.graph_node_list_size = leValue ((hsgr.drop (cfg.sizeofUUID + 4)).take 4) ∧
     l.graph_edge_list_size = leValue ((hsgr.drop (cfg.sizeofUUID + 8)).take 4)) ∧
    (d.name_index.length = min (l.name_index_list_size * 4) (names.length - 8) ∧
     d.name_char.length =
       min (l.name_char_list_size * 1) (names.length - (8 + l.name_index_list_size * 4)) ∧
     d.r_search_tree.length =
       min (cfg.sizeofRTreeNode * l.r_search_tree_size) (ram_index.length - 4) ∧
     d.graph_node_list.length =
       min (l.graph_node_list_size * cfg.sizeofStrNode) (hsgr.length - (cfg.sizeofUUID + 12)) ∧
     d.graph_edge_list.length =
       min (l.graph_edge_list_size * cfg.sizeofStrEdge)
         (hsgr.length - (cfg.sizeofUUID + 12 + l.graph_node_list_size * cfg.sizeofStrNode))) ∧
    (leValue (names.take 4) = 5000 → leValue ((names.drop 4).take 4) = 120000 →
      8 + 5000 * 4 + 120000 ≤ names.length →
      d.name_index.length = 5000 * 4 ∧ d.name_char.length = 120000) := by
  obtain ⟨f, h1, h2, h3, -⟩ := main_layout hd hl
  obtain ⟨-, -, -, -, fh, fr, -, -, fm, -, -⟩ := checkInputs_ok h1
  rw [hh] at fh
  rw [hr] at fr
  rw [hm] at fm
  have eh : f.hsgr = hsgr := (Option.some.inj fh).symm
  have er : f.ram_index = ram_index := (Option.some.inj fr).symm
  have em : f.names = names := (Option.some.inj fm).symm
  subst h2 h3
  refine ⟨?_, ?_, ?_⟩
  · simp [scannedLayout, eh, er, em]
  · simp [scannedLayout, filledRegion, eh, er, em, List.length_take, List.length_drop]
  · intro hi hc hlen
    simp only [filledRegion, em, hi, hc, List.length_take, List.length_drop]
    omega

/-- Witness of the amended C9 on the demo input. -/
theorem C9_direct_copy_lengths_witness :
    (demoLayout.name_index_list_size = leValue (demoNames.take 4) ∧
     demoLayout.name_char_list_size = leValue ((demoNames.drop 4).take 4) ∧
     demoLayout.r_search_tree_size = leValue (demoRamIndex.take 4) ∧
     demoLayout.graph_node_list_size =
       leValue ((demoHsgr.drop (demoConfig.sizeofUUID + 4)).take 4) ∧
     demoLayout.graph_edge_list_size =
       leValue ((demoHsgr.drop (demoConfig.sizeofUUID + 8)).take 4)) ∧
    (demoRegion.name_index.length =
       min (demoLayout.name_index_list_size * 4) (demoNames.length - 8) ∧
     demoRegion.name_char.length =
       min (demoLayout.name_char_list_size * 1)
         (demoNames.length - (8 + demoLayout.name_index_list_size * 4)) ∧
     demoRegion.r_search_tree.length =
       min (demoConfig.sizeofRTreeNode * demoLayout.r_search_tree_size)
         (demoRamIndex.length - 4) ∧
     demoRegion.graph_node_list.length =
       min (demoLayout.graph_node_list_size * demoConfig.sizeofStrNode)
         (demoHsgr.length - (demoConfig.sizeofUUID + 12)) ∧
     demoRegion.graph_edge_list.length =
       min (demoLayout.graph_edge_list_size * demoConfig.sizeofStrEdge)
         (demoHsgr.length - (demoConfig.sizeofUUID + 12 +
           demoLayout.graph_node_list_size * demoConfig.sizeofStrNode))) ∧
    (leValue (demoNames.take 4) = 5000 → leValue ((demoNames.drop 4).take 4) = 120000 →
      8 + 5000 * 4 + 120000 ≤ demoNames.length →
      demoRegion.name_index.length = 5000 * 4 ∧ demoRegion.name_char.length = 120000) :=
  C9_direct_copy_lengths demoConfig demoInput demoLayout demoRegion demoHsgr demoRamIndex
    demoNames (by decide) (by decide) (by decide) (by decide) (by decide)

/-- C10: in a run that fills the data region, the checksum field of the layout is the
`unsigned` read from the graph file right after the identity marker, whatever the rest
of the file holds.  The value is not checked against anything: with any other four
bytes in the place of the checksum the run fills the data region as well and the
layout carries the value of those bytes. -/
theorem C10_checksum_carried (cfg : Config) (inp : Input) (l : SharedDataLayout)
    (d : DataRegion) (hsgr : List Byte)
    (hl : (main cfg inp).layout = some l) (hd : (main cfg inp).data = some d)
    (hfile : inp.hsgr_path.file = some hsgr) :
    l.checksum = leValue ((hsgr.drop cfg.sizeofUUID).take 4) ∧
    ∀ other : List Byte, other.length = 4 → cfg.sizeofUUID ≤ hsgr.length →
      ∃ l' d',
        (main cfg (withHsgr inp
          (hsgr.take cfg.sizeofUUID ++ other ++ hsgr.drop (cfg.sizeofUUID + 4)))).layout =
            some l' ∧
        (main cfg (withHsgr inp
          (hsgr.take cfg.sizeofUUID ++ other ++ hsgr.drop (cfg.sizeofUUID + 4)))).data =
            some d' ∧
        l'.checksum = leValue other := by
  constructor
  · obtain ⟨f, h1, h2, -, -⟩ := main_layout hd hl
    have hf := (checkInputs_ok h1).2.2.2.2.1
    rw [hfile] at hf
    have he : f.hsgr = hsgr := (Option.some.inj hf).symm
    subst h2
    simp [scannedLayout, he]
  · intro other ho hlen
    have htake : (hsgr.take cfg.sizeofUUID).length = cfg.sizeofUUID := by
      rw [List.length_take]
      omega
    have hpre : (hsgr.take cfg.sizeofUUID ++ other).length = cfg.sizeofUUID + 4 := by
      rw [List.length_append, htake, ho]
    have hdrop : ∀ k, (hsgr.take cfg.sizeofUUID ++ other ++
        hsgr.drop (cfg.sizeofUUID + 4)).drop (cfg.sizeofUUID + 4 + k) =
        hsgr.drop (cfg.sizeofUUID + 4 + k) := by
      intro k
      rw [← hpre, List.drop_append k, hpre, List.drop_drop]
    have h4 := hdrop 0
    have h8 := hdrop 4
    simp only [Nat.add_zero, Nat.add_assoc] at h4 h8
    obtain ⟨f, c, hc, hf, hdone⟩ := published_withHsgr cfg inp hsgr
      (hsgr.take cfg.sizeofUUID ++ other ++ hsgr.drop (cfg.sizeofUUID + 4)) hfile
      (by rw [h4]) (by rw [h8]) d hd
    rw [main_of_done hc hdone]
    refine ⟨_, _, rfl, rfl, ?_⟩
    simp only [scannedLayout, hf, List.append_assoc]
    rw [List.drop_left' htake, List.take_left' ho]

/-- Witness of C10 on the demo input, whose graph file carries the checksum
`0x12345678`. -/
theorem C10_checksum_carried_witness :
    demoLayout.checksum = leValue ((demoHsgr.drop demoConfig.sizeofUUID).take 4) ∧
    ∀ other : List Byte, other.length = 4 → demoConfig.sizeofUUID ≤ demoHsgr.length →
      ∃ l' d',
        (main demoConfig (withHsgr demoInput
          (demoHsgr.take demoConfig.sizeofUUID ++ other ++
            demoHsgr.drop (demoConfig.sizeofUUID + 4)))).layout = some l' ∧
        (main demoConfig (withHsgr demoInput
          (demoHsgr.take demoConfig.sizeofUUID ++ other ++
            demoHsgr.drop (demoConfig.sizeofUUID + 4)))).data = some d' ∧
        l'.checksum = leValue other :=
  C10_checksum_carried demoConfig demoInput demoLayout demoRegion demoHsgr
    (by decide) (by decide) (by decide)

end Datastore
